import Mathlib

set_option maxRecDepth 8192

/-!
Verification of the configuration core of the `blue-jacket` repository
(`src/data/tradier.rs`): the `TradierRestApiConfig` structure, its
environment loader `load_from_env` (including the `dotenv` merge step),
the manual constructor `new`, and the secrecy-preserving token wrapper
`SecretString`.

Modelling conventions:
* `Cow<'static, str>` is modelled by its string content (`String`); the
  borrowed/owned distinction is an allocation strategy, not a value.
* The process environment is a map from variable names to OS-level
  values.  An OS value (`OsStr`) is either valid unicode (a `String`)
  or an arbitrary non-unicode byte sequence, mirroring `std::env::var`,
  which fails with `VarError::NotUnicode` on the latter.
* `dotenv::dotenv().ok()` is modelled by the list of successfully
  parsed `KEY=VALUE` entries of the `.env` file (a missing file is the
  empty list), applied in order; following the dotenv crate, an entry
  is merged only when `env::var` on its key currently errors.
* All effects of `load_from_env` are captured by passing the `.env`
  file contents and the environment as explicit arguments; the Rust
  function performs no other observable effects.
-/

/-- An OS-level environment value: either valid unicode or a raw,
non-unicode byte sequence (bytes as `Nat`, each < 256). -/
inductive OsStr where
  | valid (s : String)
  | invalid (bytes : List Nat)
deriving DecidableEq

/-- The process environment: a partial map from variable names to values. -/
def EnvMap : Type := String → Option OsStr

/-- Error type of `std::env::var` (`std::env::VarError`). -/
inductive VarError where
  | NotPresent
  | NotUnicode (os : OsStr)
deriving DecidableEq

/-- Rust `char::escape_debug` as used by `str`'s `Debug` impl
(double quotes escaped, single quotes not), modelled exactly on the
ASCII range: `\t`, `\n`, `\r`, `\\`, `\"`, `\0` get two-byte escapes,
remaining ASCII control characters (and DEL) a `\u` escape with
minimal lowercase hex digits, and printable ASCII stands for itself.
Characters ≥ 0x80 are outside the model: Rust additionally escapes
non-printable and grapheme-extended non-ASCII characters (e.g. U+0085
as a `\u` escape) by consulting Unicode tables this embedding does not
reproduce, and it leaves the rest verbatim; this function leaves all
of them verbatim, so every theorem that reasons about unescaped
rendering restricts its endpoint to printable ASCII, where the model
and the program agree. -/
def escape_debug_char (c : Char) : String :=
  if c = '\t' then "\\t"
  else if c = '\n' then "\\n"
  else if c = '\r' then "\\r"
  else if c = '\\' then "\\\\"
  else if c = '\"' then "\\\""
  else if c = '\x00' then "\\0"
  else if c.val < 32 ∨ c.val = 127 then
    "\\u\x7b" ++
      (if c.val.toNat < 16 then String.singleton (Nat.digitChar c.val.toNat)
       else String.singleton (Nat.digitChar (c.val.toNat / 16)) ++
            String.singleton (Nat.digitChar (c.val.toNat % 16))) ++ "\x7d"
  else String.singleton c

/-- Escape every character of a string, in order (body of `str`'s
`Debug` impl, without the surrounding quotes). -/
def escape_debug_list : List Char → String
  | [] => ""
  | c :: cs => escape_debug_char c ++ escape_debug_list cs

/-- `Debug`-escape the contents of a string. -/
def escape_debug_str (s : String) : String :=
  escape_debug_list s.data

/-- Two-digit-or-one-digit lowercase hex of a byte, used by the lossy
`Debug` rendering of non-unicode OS strings. -/
def hex_of_byte (n : Nat) : String :=
  if n < 16 then String.singleton (Nat.digitChar n)
  else String.singleton (Nat.digitChar (n / 16)) ++ String.singleton (Nat.digitChar (n % 16))

/-- Debug rendering of an OS string: valid unicode renders like `str`,
non-unicode bytes render as `\xHH` escapes (approximating the
platform-dependent lossy rendering of `OsString`'s `Debug`). -/
def OsStr.debugRepr : OsStr → String
  | .valid s => "\"" ++ escape_debug_str s ++ "\""
  | .invalid bs => "\"" ++ (bs.map (fun b => "\\x" ++ hex_of_byte b)).foldl (· ++ ·) "" ++ "\""

/-- The `Display` text of `std::env::VarError`. `NotPresent` displays
the fixed message "environment variable not found"; note it carries no
variable name. -/
def VarError.message : VarError → String
  | .NotPresent => "environment variable not found"
  | .NotUnicode os => "environment variable was not valid unicode: " ++ os.debugRepr

/-- `std::env::var`: `NotPresent` when the name is unbound,
`NotUnicode` (carrying the OS string) when bound to non-unicode data,
otherwise the unicode value. -/
def env_var (env : EnvMap) (key : String) : Except VarError String :=
  match env key with
  | none => .error .NotPresent
  | some (OsStr.valid s) => .ok s
  | some (OsStr.invalid bs) => .error (.NotUnicode (OsStr.invalid bs))

/-- `std::env::set_var`: bind a name to a unicode value. -/
def set_var (env : EnvMap) (key val : String) : EnvMap :=
  fun k => if k = key then some (OsStr.valid val) else env k

/-- One entry of the dotenv merge: the dotenv crate sets the entry's
key only when `env::var` on it currently errors (`is_err`). -/
def dotenv_step (env : EnvMap) (kv : String × String) : EnvMap :=
  match env_var env kv.1 with
  | .ok _ => env
  | .error _ => set_var env kv.1 kv.2

/-- `dotenv::dotenv().ok()`: fold the parsed `.env` entries, in file
order, over the environment. -/
def dotenv_load (file : List (String × String)) (env : EnvMap) : EnvMap :=
  file.foldl dotenv_step env

/-- `secrecy::SecretString`: an opaque wrapper holding the plaintext. -/
structure SecretString where
  secret : String
deriving DecidableEq

/-- `SecretString::new`. -/
def SecretString.new (s : String) : SecretString := ⟨s⟩

/-- `secrecy::ExposeSecret::expose_secret` — the only sanctioned way to
read the plaintext back. -/
def SecretString.expose_secret (s : SecretString) : String := s.secret

/-- The `Debug` impl of `secrecy`'s secret box: a fixed placeholder,
independent of the wrapped value. -/
def SecretString.debugRepr (_ : SecretString) : String :=
  "SecretBox<str>([REDACTED])"

/-- `TradierRestApiConfig` (src/data/tradier.rs lines 26-30); the
`endpoint` field models the `Cow<'static, str>` by its content. -/
structure TradierRestApiConfig where
  endpoint : String
  access_token : SecretString
deriving DecidableEq

/-- `TradierRestApiConfig::new` (lines 83-85): plain field assembly,
no validation, no environment access. -/
def TradierRestApiConfig.new (endpoint : String) (access_token : SecretString) :
    TradierRestApiConfig :=
  { endpoint := endpoint, access_token := access_token }

/-- The baked-in default endpoint literal of `load_from_env`. -/
def defaultEndpoint : String := "https://sandbox.tradier.com/v1/"

/-- The environment variable name read by `load_from_env`. -/
def token_var : String := "TRADIER_API_ACCESS_TOKEN"

/-- `TradierRestApiConfig::load_from_env` (lines 55-63): merge the
`.env` file via dotenv, read `TRADIER_API_ACCESS_TOKEN` with
`env::var` (propagating its error with `?`), and assemble the config
with the default sandbox endpoint and the wrapped token. -/
def load_from_env (file : List (String × String)) (env : EnvMap) :
    Except VarError TradierRestApiConfig :=
  let merged := dotenv_load file env
  match env_var merged token_var with
  | .ok access_token =>
      .ok (TradierRestApiConfig.new defaultEndpoint (SecretString.new access_token))
  | .error e => .error e

/-- Reassignment of the public `endpoint` field
(`config.endpoint = ...` in `dynamic_endpoint_conversion`,
lines 108-125), as a functional update. -/
def set_endpoint (c : TradierRestApiConfig) (e : String) : TradierRestApiConfig :=
  { c with endpoint := e }

/-- Derived `Debug` of the whole config in `{:?}` (single-line) form:
`TradierRestApiConfig { endpoint: "…", access_token: … }`; `Cow`'s
`Debug` delegates to `str`'s, the token field uses the secret box's. -/
def TradierRestApiConfig.debugRepr (c : TradierRestApiConfig) : String :=
  "TradierRestApiConfig \x7b endpoint: \"" ++ escape_debug_str c.endpoint ++
    "\", access_token: " ++ c.access_token.debugRepr ++ " \x7d"

/-- Substring containment, used to state what a rendered text reveals. -/
def containsStr (hay needle : String) : Prop :=
  needle.data <:+: hay.data

instance (hay needle : String) : Decidable (containsStr hay needle) :=
  inferInstanceAs (Decidable (needle.data <:+: hay.data))

deriving instance DecidableEq for Except

/-- The empty process environment. -/
def emptyEnv : EnvMap := fun _ => none

/-- A process environment holding only the access token, set to
"test_token". -/
def testEnv : EnvMap := set_var emptyEnv token_var "test_token"

example : load_from_env [] testEnv =
    .ok (TradierRestApiConfig.new defaultEndpoint (SecretString.new "test_token")) := by decide

example : load_from_env [] emptyEnv = .error .NotPresent := by decide

example : escape_debug_str "a\"b" = "a\\\"b" := by decide

/-! ### Helper lemmas about the dotenv merge and the loader -/

/-- One dotenv entry never changes a variable that is already bound to
a valid unicode value: the crate only sets keys on which `env::var`
errors. -/
theorem dotenv_step_preserves_valid (env : EnvMap) (kv : String × String) (v : String)
    (h : env token_var = some (OsStr.valid v)) :
    dotenv_step env kv token_var = some (OsStr.valid v) := by
  cases hEv : env_var env kv.1 with
  | ok s => simpa [dotenv_step, hEv] using h
  | error e =>
      simp only [dotenv_step, hEv, set_var]
      by_cases hk : token_var = kv.1
      · exfalso
        rw [← hk] at hEv
        simp [env_var, h] at hEv
      · rw [if_neg hk]
        exact h

/-- The whole dotenv merge never changes a variable that is already
bound to a valid unicode value. -/
theorem dotenv_load_preserves_valid (file : List (String × String)) :
    ∀ (env : EnvMap) (v : String), env token_var = some (OsStr.valid v) →
      dotenv_load file env token_var = some (OsStr.valid v) := by
  induction file with
  | nil => intro env v h; exact h
  | cons kv rest ih =>
      intro env v h
      exact ih (dotenv_step env kv) v (dotenv_step_preserves_valid env kv v h)

/-- When the token variable is bound to a valid unicode value `v`,
`load_from_env` succeeds with the default endpoint and `v` wrapped,
whatever the `.env` file holds. -/
theorem load_ok_of_env_valid (file : List (String × String)) (env : EnvMap) (v : String)
    (h : env token_var = some (OsStr.valid v)) :
    load_from_env file env =
      .ok (TradierRestApiConfig.new defaultEndpoint (SecretString.new v)) := by
  have hm := dotenv_load_preserves_valid file env v h
  simp [load_from_env, env_var, hm]

/-- When the token variable is unbound after the dotenv merge,
`load_from_env` propagates `NotPresent`. -/
theorem load_error_of_merged_absent (file : List (String × String)) (env : EnvMap)
    (h : dotenv_load file env token_var = none) :
    load_from_env file env = .error .NotPresent := by
  simp [load_from_env, env_var, h]

/-- Strings are determined by their character data. -/
theorem string_eq_of_data (a b : String) (h : a.data = b.data) : a = b := by
  cases a
  cases b
  cases h
  rfl

/-- The middle factor of a three-way concatenation is a substring. -/
theorem containsStr_append (a b c : String) : containsStr (a ++ b ++ c) b :=
  ⟨a.data, c.data, rfl⟩

/-- Substring containment is preserved under prepending. -/
theorem containsStr_mono (a c b : String) (h : containsStr c b) :
    containsStr (a ++ c) b := by
  obtain ⟨s, t, hst⟩ := h
  refine ⟨a.data ++ s, t, ?_⟩
  show a.data ++ s ++ b.data ++ t = a.data ++ c.data
  rw [← hst]
  simp [List.append_assoc]

/-- Escaping is the identity on a string none of whose characters the
formatter rewrites. -/
theorem escape_debug_list_id (l : List Char)
    (h : ∀ c ∈ l, escape_debug_char c = String.singleton c) :
    escape_debug_list l = String.mk l := by
  induction l with
  | nil => rfl
  | cons c cs ih =>
      have hc := h c (List.mem_cons_self c cs)
      have hcs := ih (fun x hx => h x (List.mem_cons_of_mem c hx))
      show escape_debug_char c ++ escape_debug_list cs = String.mk (c :: cs)
      rw [hc, hcs]
      rfl

/-- String form of `escape_debug_list_id`. -/
theorem escape_debug_str_id (s : String)
    (h : ∀ c ∈ s.data, escape_debug_char c = String.singleton c) :
    escape_debug_str s = s := by
  unfold escape_debug_str
  rw [escape_debug_list_id s.data h]

/-! ### Claim theorems -/

/-- Claim C1: with `TRADIER_API_ACCESS_TOKEN` set to a unicode value
`v` in the process environment, `load_from_env` succeeds (for any
`.env` file) with the default sandbox endpoint and a token that
reveals exactly `v`. -/
theorem load_from_env_sets_default_endpoint_and_token
    (file : List (String × String)) (env : EnvMap) (v : String)
    (h : env token_var = some (OsStr.valid v)) :
    ∃ cfg, load_from_env file env = .ok cfg ∧
      cfg.endpoint = "https://sandbox.tradier.com/v1/" ∧
      cfg.access_token.expose_secret = v :=
  ⟨TradierRestApiConfig.new defaultEndpoint (SecretString.new v),
    load_ok_of_env_valid file env v h, rfl, rfl⟩

/-- Witness for C1 at the concrete environment of the integration
test. -/
theorem load_from_env_sets_default_endpoint_and_token_witness :
    testEnv token_var = some (OsStr.valid "test_token") ∧
    ∃ cfg, load_from_env [] testEnv = .ok cfg ∧
      cfg.endpoint = "https://sandbox.tradier.com/v1/" ∧
      cfg.access_token.expose_secret = "test_token" :=
  ⟨by decide,
    load_from_env_sets_default_endpoint_and_token [] testEnv "test_token" (by decide)⟩

/-- Claim C2 (amended): with the token variable unbound after the
dotenv merge, `load_from_env` fails with `VarError.NotPresent` (the
`MissingCredential` analogue) and produces no config; but the error's
displayed content is a fixed message that does not name the expected
variable. -/
theorem load_missing_token_not_present (file : List (String × String)) (env : EnvMap)
    (h : dotenv_load file env token_var = none) :
    load_from_env file env = .error .NotPresent ∧
    ¬ containsStr (VarError.message .NotPresent) token_var :=
  ⟨load_error_of_merged_absent file env h, by decide⟩

/-- Witness for C2's amended theorem at the empty environment. -/
theorem load_missing_token_not_present_witness :
    dotenv_load [] emptyEnv token_var = none ∧
    (load_from_env [] emptyEnv = .error .NotPresent ∧
      ¬ containsStr (VarError.message .NotPresent) token_var) :=
  ⟨rfl, load_missing_token_not_present [] emptyEnv rfl⟩

/-- Counterexample for C2 as stated: the failure value carries the
fixed message "environment variable not found", which does not contain
the variable name `TRADIER_API_ACCESS_TOKEN`. -/
theorem load_error_lacks_variable_name_cex :
    load_from_env [] emptyEnv = .error .NotPresent ∧
    ¬ containsStr (VarError.message .NotPresent) "TRADIER_API_ACCESS_TOKEN" := by
  constructor
  · decide
  · decide

/-- Claim C3 (amended): the secret handle's debug representation is a
fixed placeholder, independent of the wrapped token; consequently, for
every token that is not itself a substring of that placeholder text,
the representation does not contain the plaintext. -/
theorem secret_debug_representation_constant (t : String) :
    (SecretString.new t).debugRepr = "SecretBox<str>([REDACTED])" ∧
    (¬ containsStr "SecretBox<str>([REDACTED])" t →
      ¬ containsStr ((SecretString.new t).debugRepr) t) :=
  ⟨rfl, fun hn hc => hn hc⟩

/-- Witness for C3's amended theorem at a typical token. -/
theorem secret_debug_representation_constant_witness :
    (SecretString.new "test_token").debugRepr = "SecretBox<str>([REDACTED])" ∧
    ¬ containsStr ((SecretString.new "test_token").debugRepr) "test_token" :=
  ⟨(secret_debug_representation_constant "test_token").1,
    (secret_debug_representation_constant "test_token").2 (by decide)⟩

/-- Counterexample for C3 as stated: for the token "REDACTED" — a
common debug marker coinciding with the redaction placeholder text —
the default representation does contain the plaintext. -/
theorem secret_debug_contains_redacted_token_cex :
    (SecretString.new "REDACTED").expose_secret = "REDACTED" ∧
    containsStr ((SecretString.new "REDACTED").debugRepr) "REDACTED" := by
  constructor
  · rfl
  · decide

/-- Claim C4: the manual constructor is total and pure (it is a plain
function of its two arguments, with no environment parameter), and for
every endpoint `e` and non-empty token `t` it round-trips both fields
exactly. -/
theorem new_roundtrip (e t : String) (_h : t ≠ "") :
    (TradierRestApiConfig.new e (SecretString.new t)).endpoint = e ∧
    (TradierRestApiConfig.new e (SecretString.new t)).access_token.expose_secret = t :=
  ⟨rfl, rfl⟩

/-- Witness for C4 at the values of `new_config_with_custom_endpoint`. -/
theorem new_roundtrip_witness :
    "test_token" ≠ "" ∧
    ((TradierRestApiConfig.new "https://api.tradier.com/v1/"
        (SecretString.new "test_token")).endpoint = "https://api.tradier.com/v1/" ∧
      (TradierRestApiConfig.new "https://api.tradier.com/v1/"
        (SecretString.new "test_token")).access_token.expose_secret = "test_token") :=
  ⟨by decide, new_roundtrip "https://api.tradier.com/v1/" "test_token" (by decide)⟩

/-- Claim C5 (amended): a successful `load_from_env` always carries
the constant, non-empty default sandbox endpoint (and a missing token
is a construction-time failure, per C2); but token emptiness is never
validated. -/
theorem load_success_endpoint_nonempty (file : List (String × String)) (env : EnvMap)
    (cfg : TradierRestApiConfig) (h : load_from_env file env = .ok cfg) :
    cfg.endpoint = defaultEndpoint ∧ cfg.endpoint ≠ "" := by
  unfold load_from_env at h
  revert h
  cases henv : env_var (dotenv_load file env) token_var with
  | ok s =>
      intro h
      simp only [henv, Except.ok.injEq] at h
      constructor
      · rw [← h]; rfl
      · rw [← h]
        show defaultEndpoint ≠ ""
        decide
  | error e =>
      intro h
      simp [henv] at h

/-- Witness for C5's amended theorem at the test environment. -/
theorem load_success_endpoint_nonempty_witness :
    load_from_env [] testEnv =
      .ok (TradierRestApiConfig.new defaultEndpoint (SecretString.new "test_token")) ∧
    ((TradierRestApiConfig.new defaultEndpoint
        (SecretString.new "test_token")).endpoint = defaultEndpoint ∧
      (TradierRestApiConfig.new defaultEndpoint
        (SecretString.new "test_token")).endpoint ≠ "") :=
  ⟨by decide,
    load_success_endpoint_nonempty [] testEnv
      (TradierRestApiConfig.new defaultEndpoint (SecretString.new "test_token"))
      (by decide)⟩

/-- Counterexample for C5 as stated: with the variable set to the
empty string, construction succeeds and yields a config whose revealed
token is empty — an empty token is a reachable state, not a
construction-time failure. -/
theorem empty_token_accepted_cex :
    load_from_env [] (set_var emptyEnv token_var "") =
      .ok (TradierRestApiConfig.new defaultEndpoint (SecretString.new "")) ∧
    (TradierRestApiConfig.new defaultEndpoint
        (SecretString.new "")).access_token.expose_secret = "" := by
  constructor
  · decide
  · rfl

/-- Claim C6 (amended): whenever the token variable is present with a
valid unicode value, `load_from_env` succeeds for any `.env` file;
absence yields `NotPresent`, and the only other failure mode is a
present but non-unicode value (`NotUnicode`). -/
theorem valid_present_token_loads_ok
    (file : List (String × String)) (env : EnvMap) (v : String)
    (h : env token_var = some (OsStr.valid v)) :
    (load_from_env file env).isOk = true := by
  rw [load_ok_of_env_valid file env v h]
  rfl

/-- Witness for C6's amended theorem at the test environment. -/
theorem valid_present_token_loads_ok_witness :
    testEnv token_var = some (OsStr.valid "test_token") ∧
    (load_from_env [] testEnv).isOk = true :=
  ⟨by decide, valid_present_token_loads_ok [] testEnv "test_token" (by decide)⟩

/-- A process environment whose token variable is bound to non-unicode
bytes (a lone 0xff byte). -/
def nonUnicodeEnv : EnvMap :=
  fun k => if k = token_var then some (OsStr.invalid [255]) else none

/-- Counterexample for C6 as stated: the variable is present (bound to
non-unicode bytes), yet `load_from_env` fails — with `NotUnicode`, a
second error kind besides absence. -/
theorem non_unicode_value_fails_cex :
    nonUnicodeEnv token_var = some (OsStr.invalid [255]) ∧
    load_from_env [] nonUnicodeEnv = .error (.NotUnicode (OsStr.invalid [255])) := by
  constructor
  · decide
  · decide

/-- Claim C7: reassigning the endpoint field is reflected immediately
and leaves the stored credential (its revealed value) unchanged. -/
theorem set_endpoint_frame (c : TradierRestApiConfig) (e : String) :
    (set_endpoint c e).endpoint = e ∧
    (set_endpoint c e).access_token.expose_secret = c.access_token.expose_secret :=
  ⟨rfl, rfl⟩

/-- Claim C8: `load_from_env` is a pure function of the `.env` file
contents and the environment (all its effects are those two explicit
inputs), so two calls against the same state return equal results; in
particular any two successfully produced configs agree on both the
endpoint and the revealed token. -/
theorem load_from_env_deterministic
    (file : List (String × String)) (env : EnvMap)
    (c₁ c₂ : TradierRestApiConfig)
    (h₁ : load_from_env file env = .ok c₁) (h₂ : load_from_env file env = .ok c₂) :
    load_from_env file env = load_from_env file env ∧
    c₁.endpoint = c₂.endpoint ∧
    c₁.access_token.expose_secret = c₂.access_token.expose_secret := by
  have hc : c₁ = c₂ := by
    have h := h₁.symm.trans h₂
    exact Except.ok.inj h
  subst hc
  exact ⟨rfl, rfl, rfl⟩

/-- Witness for C8 at the test environment. -/
theorem load_from_env_deterministic_witness :
    load_from_env [] testEnv =
      .ok (TradierRestApiConfig.new defaultEndpoint (SecretString.new "test_token")) ∧
    (load_from_env [] testEnv = load_from_env [] testEnv ∧
      (TradierRestApiConfig.new defaultEndpoint
          (SecretString.new "test_token")).endpoint =
        (TradierRestApiConfig.new defaultEndpoint
          (SecretString.new "test_token")).endpoint ∧
      (TradierRestApiConfig.new defaultEndpoint
          (SecretString.new "test_token")).access_token.expose_secret =
        (TradierRestApiConfig.new defaultEndpoint
          (SecretString.new "test_token")).access_token.expose_secret) :=
  ⟨by decide,
    load_from_env_deterministic [] testEnv
      (TradierRestApiConfig.new defaultEndpoint (SecretString.new "test_token"))
      (TradierRestApiConfig.new defaultEndpoint (SecretString.new "test_token"))
      (by decide) (by decide)⟩

/-- Claim C9 (amended): when the token variable is already bound to a
valid-unicode value `v` in the process environment, the dotenv merge
never changes the token that is used: the load succeeds with revealed
token `v` regardless of the `.env` file, and its result equals the
result with no file at all.  (A variable bound to non-unicode bytes,
by contrast, is overridden, because dotenv sets any key on which
`env::var` errors — see the counterexample below.) -/
theorem dotenv_does_not_override_env_token
    (file : List (String × String)) (env : EnvMap) (v : String)
    (h : env token_var = some (OsStr.valid v)) :
    ∃ cfg, load_from_env file env = .ok cfg ∧
      cfg.access_token.expose_secret = v ∧
      load_from_env file env = load_from_env [] env :=
  ⟨TradierRestApiConfig.new defaultEndpoint (SecretString.new v),
    load_ok_of_env_valid file env v h, rfl,
    (load_ok_of_env_valid file env v h).trans (load_ok_of_env_valid [] env v h).symm⟩

/-- Witness for C9: a `.env` file that binds the token variable to a
different value does not override the process environment. -/
theorem dotenv_does_not_override_env_token_witness :
    testEnv token_var = some (OsStr.valid "test_token") ∧
    ∃ cfg, load_from_env [(token_var, "file_token")] testEnv = .ok cfg ∧
      cfg.access_token.expose_secret = "test_token" ∧
      load_from_env [(token_var, "file_token")] testEnv = load_from_env [] testEnv :=
  ⟨by decide,
    dotenv_does_not_override_env_token [(token_var, "file_token")] testEnv "test_token"
      (by decide)⟩

/-- Counterexample for C9 as stated: a variable that is already set —
but to non-unicode bytes — does not take precedence over the `.env`
file: `env::var` errors on it, so the dotenv merge sets the key and
the revealed token is the file's value, not the pre-existing
environment value. -/
theorem dotenv_overrides_non_unicode_env_cex :
    nonUnicodeEnv token_var = some (OsStr.invalid [255]) ∧
    load_from_env [(token_var, "file_token")] nonUnicodeEnv =
      .ok (TradierRestApiConfig.new defaultEndpoint (SecretString.new "file_token")) ∧
    (TradierRestApiConfig.new defaultEndpoint
        (SecretString.new "file_token")).access_token.expose_secret = "file_token" := by
  refine ⟨by decide, by decide, rfl⟩

/-- The literal text preceding the escaped endpoint in the derived
`Debug` output of a config. -/
def debugPrefix : String := "TradierRestApiConfig \x7b endpoint: \""

/-- The literal text following the escaped endpoint in the derived
`Debug` output of a config (closing quote, token field with its fixed
redacted placeholder, closing brace). -/
def debugSuffix : String := "\", access_token: SecretBox<str>([REDACTED]) \x7d"

/-- On printable ASCII other than the double quote and the backslash
— characters neither Rust's `Debug` escaping nor the model rewrites —
escaping is the identity. -/
theorem escape_debug_char_ascii_printable (c : Char)
    (h1 : 32 ≤ c.val) (h2 : c.val < 127) (h3 : c ≠ '\"') (h4 : c ≠ '\\') :
    escape_debug_char c = String.singleton c := by
  have ht : c ≠ '\t' := by intro e; subst e; exact absurd h1 (by decide)
  have hn : c ≠ '\n' := by intro e; subst e; exact absurd h1 (by decide)
  have hr : c ≠ '\r' := by intro e; subst e; exact absurd h1 (by decide)
  have hz : c ≠ '\x00' := by intro e; subst e; exact absurd h1 (by decide)
  have hcc : ¬(c.val < 32 ∨ c.val = 127) := by
    rintro (hlt | heq)
    · exact absurd h1 (UInt32.not_le.mpr hlt)
    · rw [heq] at h2
      exact absurd h2 (by decide)
  unfold escape_debug_char
  rw [if_neg ht, if_neg hn, if_neg hr, if_neg h4, if_neg h3, if_neg hz, if_neg hcc]

/-- Claim C10 (amended): the derived `Debug` of a whole config renders
the token field only as the fixed redacted placeholder, and it
contains the endpoint in plaintext whenever the endpoint consists of
printable ASCII characters other than the double quote and the
backslash — characters `Debug` escaping leaves unchanged (the range on
which the escape model is exact). -/
theorem config_debug_shows_endpoint_redacts_token (c : TradierRestApiConfig)
    (h : ∀ ch ∈ c.endpoint.data,
      32 ≤ ch.val ∧ ch.val < 127 ∧ ch ≠ '\"' ∧ ch ≠ '\\') :
    c.debugRepr = debugPrefix ++ c.endpoint ++ debugSuffix ∧
    containsStr c.debugRepr c.endpoint ∧
    containsStr c.debugRepr "SecretBox<str>([REDACTED])" := by
  have hesc : ∀ ch ∈ c.endpoint.data, escape_debug_char ch = String.singleton ch := by
    intro ch hch
    obtain ⟨h1, h2, h3, h4⟩ := h ch hch
    exact escape_debug_char_ascii_printable ch h1 h2 h3 h4
  have he : escape_debug_str c.endpoint = c.endpoint := escape_debug_str_id _ hesc
  have hrepr : c.debugRepr = debugPrefix ++ c.endpoint ++ debugSuffix := by
    apply string_eq_of_data
    show ("TradierRestApiConfig \x7b endpoint: \"").data ++
        (escape_debug_str c.endpoint).data ++
        ("\", access_token: ").data ++ ("SecretBox<str>([REDACTED])").data ++
        (" \x7d").data =
      debugPrefix.data ++ c.endpoint.data ++ debugSuffix.data
    rw [he]
    simp [debugPrefix, debugSuffix]
  refine ⟨hrepr, ?_, ?_⟩
  · rw [hrepr]
    exact containsStr_append debugPrefix c.endpoint debugSuffix
  · rw [hrepr]
    exact containsStr_mono (debugPrefix ++ c.endpoint) debugSuffix
      "SecretBox<str>([REDACTED])" (by decide)

/-- Witness for C10's amended theorem at the default endpoint. -/
theorem config_debug_shows_endpoint_redacts_token_witness :
    (∀ ch ∈ (TradierRestApiConfig.new defaultEndpoint
        (SecretString.new "test_token")).endpoint.data,
      32 ≤ ch.val ∧ ch.val < 127 ∧ ch ≠ '\"' ∧ ch ≠ '\\') ∧
    ((TradierRestApiConfig.new defaultEndpoint
        (SecretString.new "test_token")).debugRepr =
      debugPrefix ++ (TradierRestApiConfig.new defaultEndpoint
        (SecretString.new "test_token")).endpoint ++ debugSuffix ∧
    containsStr (TradierRestApiConfig.new defaultEndpoint
        (SecretString.new "test_token")).debugRepr
      (TradierRestApiConfig.new defaultEndpoint
        (SecretString.new "test_token")).endpoint ∧
    containsStr (TradierRestApiConfig.new defaultEndpoint
        (SecretString.new "test_token")).debugRepr "SecretBox<str>([REDACTED])") :=
  ⟨by decide,
    config_debug_shows_endpoint_redacts_token
      (TradierRestApiConfig.new defaultEndpoint (SecretString.new "test_token"))
      (by decide)⟩

/-- A config whose endpoint contains a double quote, which `Debug`
escaping rewrites. -/
def quoteEndpointConfig : TradierRestApiConfig :=
  TradierRestApiConfig.new "a\"b" (SecretString.new "test_token")

/-- Counterexample for C10 as stated: for an endpoint containing a
double quote, the derived `Debug` output shows the escaped form and
does not contain the endpoint string in plaintext. -/
theorem config_debug_escaped_endpoint_cex :
    quoteEndpointConfig.endpoint = "a\"b" ∧
    ¬ containsStr quoteEndpointConfig.debugRepr quoteEndpointConfig.endpoint := by
  constructor
  · rfl
  · decide
